import Mathlib

/-!
Verification development for the Aspia secure-channel and file-copy core.

Part 1 embeds the server-side authentication handshake of
`source/base/net/server_authenticator.cc` (state machine over protobuf
messages): the `ClientHello` handler, the `SessionResponse` handler and the
configuration setters.

Part 2 embeds the file-transfer coordinator of `client/file_transfer.cc`
(the repository snapshot carries it as an unnamed source file): the error
action table, the reply handlers, the error action policy and the finish
path, together with a small operation alphabet driving whole executions.

Machine integers of the source are modelled as `Nat` (all quantities
involved are non-negative and no handler can overflow 64-bit counters on
inputs of representable size); byte strings are `List Nat`; fallible
parses are `Option`.
-/

namespace Aspia

/-! ### Part 1: server authenticator, data model -/

/-- Outcome state of the authenticator (`ServerAuthenticator::State`). -/
inductive AuthState
  | stopped
  | pending
  | success
  | failed
deriving DecidableEq, Repr

/-- Protocol position (`ServerAuthenticator::InternalState`). -/
inductive InternalState
  | readClientHello
  | sendServerHello
  | readIdentify
  | sendServerKeyExchange
  | readClientKeyExchange
  | sendSessionChallenge
  | readSessionResponse
deriving DecidableEq, Repr

/-- `ServerAuthenticator::AnonymousAccess`. -/
inductive AnonymousAccess
  | enable
  | disable
deriving DecidableEq, Repr

/-- Modelled from the spec: wire value of `proto::ENCRYPTION_AES256_GCM`
(the protobuf definition is not part of the snapshot; the handshake uses the
values only as distinct bits of a mask). -/
def ENCRYPTION_AES256_GCM : Nat := 1

/-- Modelled from the spec: wire value of `proto::ENCRYPTION_CHACHA20_POLY1305`. -/
def ENCRYPTION_CHACHA20_POLY1305 : Nat := 2

/-- Modelled from the spec: wire value of `proto::IDENTIFY_SRP`. -/
def IDENTIFY_SRP : Nat := 0

/-- Modelled from the spec: wire value of `proto::IDENTIFY_ANONYMOUS`. -/
def IDENTIFY_ANONYMOUS : Nat := 1

/-- Parsed `proto::ClientHello` message. -/
structure ClientHello where
  encryption : Nat
  identify : Nat
  iv : List Nat
  publicKey : List Nat
deriving DecidableEq, Repr

/-- `proto::ServerHello` message as assembled by `onClientHello`. -/
structure ServerHello where
  encryption : Nat
  iv : List Nat
deriving DecidableEq, Repr

/-- Parsed `proto::SessionResponse` message. -/
structure SessionResponse where
  sessionType : Nat
  versionMajor : Nat
  versionMinor : Nat
  versionPatch : Nat
deriving DecidableEq, Repr

/-- The mutable fields of `ServerAuthenticator` the embedded handlers read
or write. -/
structure Authenticator where
  state : AuthState
  internalState : InternalState
  keyPairValid : Bool
  encryptIv : List Nat
  decryptIv : List Nat
  sessionKey : List Nat
  sessionTypes : Nat
  anonymousAccess : AnonymousAccess
  identify : Nat
  encryption : Nat
  sessionType : Nat
  peerVersion : Nat × Nat × Nat
deriving DecidableEq, Repr

/-- Environment of the handlers: CPU feature probe and the cryptographic
primitives the authenticator calls (key agreement, BLAKE2s-256, random
bytes), which live outside the embedded file. -/
structure CryptoEnv where
  hasAesNi : Bool
  sessionKeyOf : List Nat → List Nat
  blake2s256 : List Nat → List Nat
  fromPrivateKey : List Nat → Bool
  randomIv : List Nat

/-- `ServerAuthenticator::onFailed`: stop timer, drop channel, set the
FAILED state (timer and channel are not observed by the claims). -/
def failAuth (a : Authenticator) : Authenticator :=
  { a with state := AuthState.failed }

/-- Result of processing a `ClientHello`: either the single failure path,
or a `ServerHello` was sent and the internal state advanced. -/
inductive HelloResult
  | failed (a : Authenticator)
  | sent (a : Authenticator) (hello : ServerHello)
deriving DecidableEq, Repr

/-- True when the handler routed to `onFailed`. -/
def HelloResult.isFailed : HelloResult → Bool
  | .failed _ => true
  | .sent _ _ => false

/-- The `ServerHello` that was sent, when one was. -/
def HelloResult.sentHello : HelloResult → Option ServerHello
  | .failed _ => none
  | .sent _ sh => some sh

/-- The cipher-selection tail of `onClientHello`: pick AES256-GCM when the
client advertised it and the CPU has AES-NI, otherwise ChaCha20-Poly1305;
record the choice and send the `ServerHello`. -/
def finishHello (a : Authenticator) (env : CryptoEnv) (ch : ClientHello)
    (shIv : List Nat) : HelloResult :=
  let enc :=
    if ch.encryption &&& ENCRYPTION_AES256_GCM ≠ 0 ∧ env.hasAesNi = true then
      ENCRYPTION_AES256_GCM
    else
      ENCRYPTION_CHACHA20_POLY1305
  .sent { a with internalState := InternalState.sendServerHello, encryption := enc }
    { encryption := enc, iv := shIv }

/-- The key-agreement block of `onClientHello`: when a key pair is
installed, take the client IV and public key, derive the session key, and
embed the server encrypt IV in the `ServerHello`. -/
def helloKeyBlock (a : Authenticator) (env : CryptoEnv) (ch : ClientHello) : HelloResult :=
  if a.keyPairValid = true then
    let a2 := { a with decryptIv := ch.iv }
    if a2.decryptIv = [] then .failed (failAuth a2)
    else if ch.publicKey = [] then .failed (failAuth a2)
    else
      let temp := env.sessionKeyOf ch.publicKey
      if temp = [] then .failed (failAuth a2)
      else
        let a3 := { a2 with sessionKey := env.blake2s256 temp }
        if a3.sessionKey = [] then .failed (failAuth a3)
        else finishHello a3 env ch a3.encryptIv
  else finishHello a env ch []

/-- `ServerAuthenticator::onClientHello`: parse, check the encryption mask,
switch on the identify method exactly as the source does (the ANONYMOUS arm
fails when `anonymous_access_ == AnonymousAccess::ENABLE`), then run the
key block and cipher selection. -/
def onClientHello (a : Authenticator) (env : CryptoEnv)
    (msg : Option ClientHello) : HelloResult :=
  match msg with
  | none => .failed (failAuth a)
  | some ch =>
    if ch.encryption &&& ENCRYPTION_AES256_GCM = 0 ∧
        ch.encryption &&& ENCRYPTION_CHACHA20_POLY1305 = 0 then
      .failed (failAuth a)
    else
      let a1 := { a with identify := ch.identify }
      if a1.identify = IDENTIFY_SRP then
        helloKeyBlock a1 env ch
      else if a1.identify = IDENTIFY_ANONYMOUS then
        if a1.anonymousAccess = AnonymousAccess.enable then .failed (failAuth a1)
        else helloKeyBlock a1 env ch
      else .failed (failAuth a1)

/-- Population count of the low 32 bits, mirroring
`BitSet<uint32_t>::count` used on `session_response.session_type()`. -/
def bitCount32 (n : Nat) : Nat :=
  (List.range 32).countP (fun i => n.testBit i)

/-- `ServerAuthenticator::onSessionResponse`: record the peer version,
require exactly one session-type bit, require it to intersect the allowed
mask, then report SUCCESS; every other path reports FAILED. The boolean of
the result records that `delegate->onComplete()` fired. -/
def onSessionResponse (a : Authenticator) (msg : Option SessionResponse) :
    Authenticator × Bool :=
  match msg with
  | none => (failAuth a, true)
  | some r =>
    let a1 := { a with peerVersion := (r.versionMajor, r.versionMinor, r.versionPatch) }
    if bitCount32 r.sessionType ≠ 1 then (failAuth a1, true)
    else
      let a2 := { a1 with sessionType := r.sessionType }
      if a2.sessionTypes &&& a2.sessionType = 0 then (failAuth a2, true)
      else ({ a2 with state := AuthState.success }, true)

/-- `ServerAuthenticator::setPrivateKey`: reject outside STOPPED, reject an
empty key, load the key pair, pick a fresh encrypt IV. -/
def setPrivateKey (a : Authenticator) (env : CryptoEnv) (privateKey : List Nat) :
    Bool × Authenticator :=
  if a.state ≠ AuthState.stopped then (false, a)
  else if privateKey = [] then (false, a)
  else
    let valid := env.fromPrivateKey privateKey
    let a1 := { a with keyPairValid := valid }
    if valid = false then (false, a1)
    else
      let a2 := { a1 with encryptIv := env.randomIv }
      if a2.encryptIv = [] then (false, a2) else (true, a2)

/-- `ServerAuthenticator::setAnonymousAccess`: reject outside STOPPED; for
ENABLE require a valid key pair and a non-zero session mask; otherwise
clear the mask. -/
def setAnonymousAccess (a : Authenticator) (access : AnonymousAccess)
    (sessionTypes : Nat) : Bool × Authenticator :=
  if a.state ≠ AuthState.stopped then (false, a)
  else if access = AnonymousAccess.enable then
    if a.keyPairValid = false then (false, a)
    else if sessionTypes = 0 then (false, a)
    else (true, { a with sessionTypes := sessionTypes, anonymousAccess := access })
  else (true, { a with sessionTypes := 0, anonymousAccess := access })

/-! ### Part 2: file-transfer coordinator, data model -/

/-- `FileTransfer::Error::Type`. -/
inductive ErrType
  | queue
  | createDirectory
  | createFile
  | openFile
  | alreadyExists
  | writeFile
  | readFile
  | other
deriving DecidableEq, Repr

/-- `FileTransfer::Error::Action`. -/
inductive ErrAction
  | ask
  | abort
  | skip
  | skipAll
  | replace
  | replaceAll
deriving DecidableEq, Repr

/-- Modelled from the spec: the bit values of `Error::Action` used in the
`available_actions` masks (the declaring header `client/file_transfer.h` is
not part of the snapshot; only distinctness of the bits matters). -/
def actionBit : ErrAction → Nat
  | .ask => 0
  | .abort => 1
  | .skip => 2
  | .skipAll => 4
  | .replace => 8
  | .replaceAll => 16

/-- The `kActions` table of `file_transfer.cc`: per error type, the mask of
available actions and the default action, in source order. -/
def kActions : List (ErrType × Nat × ErrAction) :=
  [ (ErrType.createDirectory,
      actionBit .abort ||| actionBit .skip ||| actionBit .skipAll, ErrAction.ask),
    (ErrType.createFile,
      actionBit .abort ||| actionBit .skip ||| actionBit .skipAll, ErrAction.ask),
    (ErrType.openFile,
      actionBit .abort ||| actionBit .skip ||| actionBit .skipAll, ErrAction.ask),
    (ErrType.alreadyExists,
      actionBit .abort ||| actionBit .skip ||| actionBit .skipAll |||
        actionBit .replace ||| actionBit .replaceAll, ErrAction.ask),
    (ErrType.writeFile,
      actionBit .abort ||| actionBit .skip ||| actionBit .skipAll, ErrAction.ask),
    (ErrType.readFile,
      actionBit .abort ||| actionBit .skip ||| actionBit .skipAll, ErrAction.ask),
    (ErrType.other,
      actionBit .abort, ErrAction.ask) ]

/-- `FileTransfer::Error::availableActions`: first matching table row, or 0
when the type has no row. -/
def availableActions (t : ErrType) : Nat :=
  match kActions.find? (fun row => row.1 == t) with
  | some row => row.2.1
  | none => 0

/-- `FileTransfer::Error::defaultAction`: first matching table row, or
ABORT when the type has no row. -/
def defaultAction (t : ErrType) : ErrAction :=
  match kActions.find? (fun row => row.1 == t) with
  | some row => row.2.2
  | none => ErrAction.abort

/-- `proto::FileError` values the coordinator distinguishes. -/
inductive FileError
  | success
  | unknown
  | pathAlreadyExists
  | otherCode (n : Nat)
deriving DecidableEq, Repr

/-- A queued `FileTransferTask`. -/
structure Task where
  sourcePath : String
  targetPath : String
  isDirectory : Bool
  size : Nat
  overwrite : Bool
deriving DecidableEq, Repr, Inhabited

/-- A surfaced `FileTransfer::Error` (type, file error code, path). -/
structure TransferError where
  type : ErrType
  code : FileError
  path : String
deriving DecidableEq, Repr

/-- A request handed to the request consumer proxy. -/
inductive Req
  | createDirectory (path : String)
  | download (path : String)
  | upload (path : String) (overwrite : Bool)
  | packetRequest (flags : Nat)
  | packet
deriving DecidableEq, Repr

/-- Observable effects of a coordinator handler: requests issued, window
proxy calls, and the finish callback. -/
inductive Event
  | request (r : Req)
  | setCurrentItem (src tgt : String)
  | setCurrentProgress (total task : Nat)
  | errorOccurred (e : TransferError)
  | windowStop
  | finishCallback
deriving DecidableEq, Repr

/-- True for the window proxy `errorOccurred` call. -/
def Event.isErrorCall : Event → Bool
  | .errorOccurred _ => true
  | _ => false

/-- Modelled from the spec: `proto::FilePacket::LAST_PACKET` is bit 0 of
the packet flags (protobuf definition absent from the snapshot). -/
def LAST_PACKET : Nat := 1

/-- Modelled from the spec: `proto::FilePacketRequest::CANCEL` is bit 0 of
the request flags; `NO_FLAGS` is 0. -/
def CANCEL : Nat := 1

/-- The mutable fields of `FileTransfer` the embedded handlers read or
write. `builderActive` stands for `queue_builder_` being non-null,
`finishCallbackPresent` for a non-empty `finish_callback_`. -/
structure FT where
  tasks : List Task
  totalSize : Nat
  taskTransferedSize : Nat
  totalTransferedSize : Nat
  taskPercentage : Nat
  totalPercentage : Nat
  isCanceled : Bool
  actions : ErrType → Option ErrAction
  finishCallbackPresent : Bool
  cancelTimerActive : Bool
  builderActive : Bool

/-- `FileTransfer::onFinished`: swap out the finish callback; when one was
present, stop the window and invoke it. -/
def onFinished (s : FT) : FT × List Event :=
  if s.finishCallbackPresent then
    ({ s with finishCallbackPresent := false }, [Event.windowStop, Event.finishCallback])
  else (s, [])

/-- `FileTransfer::setActionForErrorType`: `insert_or_assign` on the sticky
action map. -/
def setActionForErrorType (s : FT) (t : ErrType) (a : ErrAction) : FT :=
  { s with actions := fun u => if u = t then some a else s.actions u }

/-- `FileTransfer::doFrontTask`: reset the per-task counters, set the
overwrite flag on the front task, announce it to the window, and issue the
create-directory or download request. The source indexes `tasks_.front()`;
the empty case is unreachable at its call sites and modelled as a no-op. -/
def doFrontTask (s : FT) (overwrite : Bool) : FT × List Event :=
  match s.tasks with
  | [] => (s, [])
  | t :: rest =>
    let t1 := { t with overwrite := overwrite }
    let s1 := { s with taskPercentage := 0, taskTransferedSize := 0, tasks := t1 :: rest }
    if t1.isDirectory then
      (s1, [Event.setCurrentItem t1.sourcePath t1.targetPath,
            Event.request (Req.createDirectory t1.targetPath)])
    else
      (s1, [Event.setCurrentItem t1.sourcePath t1.targetPath,
            Event.request (Req.download t1.sourcePath)])

/-- `FileTransfer::doNextTask`: on cancellation drain the queue, pop the
confirmed task, finish when the queue empties (stopping the cancel timer),
otherwise start the next front task. -/
def doNextTask (s : FT) : FT × List Event :=
  let s1 := if s.isCanceled then { s with tasks := [] } else s
  let s2 :=
    match s1.tasks with
    | [] => s1
    | _ :: rest => { s1 with tasks := rest }
  if s2.tasks.isEmpty then
    let s3 := if s2.cancelTimerActive then { s2 with cancelTimerActive := false } else s2
    onFinished s3
  else doFrontTask s2 false

/-- `FileTransfer::setAction`: dispatch a chosen error action; the ALL
variants record the sticky mapping first. ASK is `NOTREACHED()` in the
source and modelled as a no-op. -/
def setAction (s : FT) (t : ErrType) (a : ErrAction) : FT × List Event :=
  match a with
  | .abort => onFinished s
  | .replace => doFrontTask s true
  | .replaceAll => doFrontTask (setActionForErrorType s t ErrAction.replaceAll) true
  | .skip => doNextTask s
  | .skipAll => doNextTask (setActionForErrorType s t ErrAction.skipAll)
  | .ask => (s, [])

/-- `FileTransfer::onError`: apply the sticky action for the type when one
is recorded, otherwise surface the error to the window proxy. -/
def onError (s : FT) (t : ErrType) (code : FileError) (path : String) :
    FT × List Event :=
  match s.actions t with
  | some a => setAction s t a
  | none => (s, [Event.errorOccurred { type := t, code := code, path := path }])

/-- The `oneof` discriminant of an inbound `proto::FileRequest`, as tested
by the reply handlers (`has_create_directory_request()` and so on). The
packet case carries the packet flags the handler reads back. -/
inductive FileRequestBody
  | createDirectoryReq
  | uploadReq
  | downloadReq
  | packetRequestReq
  | packetReq (flags : Nat)
  | listReq
deriving DecidableEq, Repr

/-- The fields of a `proto::FileReply` the coordinator reads. -/
structure FileReply where
  errorCode : FileError
deriving DecidableEq, Repr

/-- The progress-accounting block of `FileTransfer::targetReply` for a
written packet, exactly as the source computes it: charge a full
`kMaxFilePacketSize`, clamp the per-task counter at the task size and in
that case charge `task_transfered_size_ - full_task_size` instead, then
recompute the percentages and emit them when changed. -/
def chargePacket (kMax : Nat) (s : FT) (fullTaskSize : Nat) : FT × List Event :=
  if fullTaskSize ≠ 0 ∧ s.totalSize ≠ 0 then
    let tt := s.taskTransferedSize + kMax
    let ps := if tt > fullTaskSize then tt - fullTaskSize else kMax
    let tt1 := if tt > fullTaskSize then fullTaskSize else tt
    let tot := s.totalTransferedSize + ps
    let taskPct := tt1 * 100 / fullTaskSize
    let totalPct := tot * 100 / s.totalSize
    let s1 := { s with taskTransferedSize := tt1, totalTransferedSize := tot }
    if taskPct ≠ s.taskPercentage ∨ totalPct ≠ s.totalPercentage then
      ({ s1 with taskPercentage := taskPct, totalPercentage := totalPct },
        [Event.setCurrentProgress totalPct taskPct])
    else
      (s1, [])
  else (s, [])

/-- `FileTransfer::targetReply`: ignore replies on an empty queue; handle
create-directory, upload and packet replies; any other shape is an OTHER
error. -/
def targetReply (kMax : Nat) (s : FT) (req : FileRequestBody) (rep : FileReply) :
    FT × List Event :=
  if s.tasks.isEmpty then (s, [])
  else
    match req with
    | .createDirectoryReq =>
      if rep.errorCode = FileError.success ∨ rep.errorCode = FileError.pathAlreadyExists then
        doNextTask s
      else
        onError s ErrType.createDirectory rep.errorCode ((s.tasks.headI).targetPath)
    | .uploadReq =>
      if rep.errorCode ≠ FileError.success then
        let t :=
          if rep.errorCode = FileError.pathAlreadyExists then ErrType.alreadyExists
          else ErrType.createFile
        onError s t rep.errorCode ((s.tasks.headI).targetPath)
      else
        (s, [Event.request (Req.packetRequest 0)])
    | .packetReq flags =>
      if rep.errorCode ≠ FileError.success then
        onError s ErrType.writeFile rep.errorCode ((s.tasks.headI).targetPath)
      else
        let p := chargePacket kMax s ((s.tasks.headI).size)
        if flags &&& LAST_PACKET ≠ 0 then
          let n := doNextTask p.1
          (n.1, p.2 ++ n.2)
        else
          (p.1, p.2 ++
            [Event.request (Req.packetRequest (if p.1.isCanceled then CANCEL else 0))])
    | _ => onError s ErrType.other FileError.unknown ""

/-- `FileTransfer::sourceReply`: ignore replies on an empty queue; handle
download and packet-request replies; any other shape is an OTHER error. -/
def sourceReply (s : FT) (req : FileRequestBody) (rep : FileReply) :
    FT × List Event :=
  if s.tasks.isEmpty then (s, [])
  else
    match req with
    | .downloadReq =>
      if rep.errorCode ≠ FileError.success then
        onError s ErrType.openFile rep.errorCode ((s.tasks.headI).sourcePath)
      else
        (s, [Event.request (Req.upload ((s.tasks.headI).targetPath)
          ((s.tasks.headI).overwrite))])
    | .packetRequestReq =>
      if rep.errorCode ≠ FileError.success then
        onError s ErrType.readFile rep.errorCode ((s.tasks.headI).sourcePath)
      else
        (s, [Event.request Req.packet])
    | _ => onError s ErrType.other FileError.unknown ""

/-- `FileTransfer::stop`: while the queue is still being built, drop the
builder and finish; afterwards set the cancel flag and arm the 5-second
drain deadline. -/
def stopTransfer (s : FT) : FT × List Event :=
  if s.builderActive then
    onFinished { s with builderActive := false }
  else
    ({ s with isCanceled := true, cancelTimerActive := true }, [])

/-- The completion callback `FileTransfer::start` installs on the queue
builder: on success take the queue and the total size, finish on an empty
queue or start the front task; on failure raise a QUEUE error. The builder
is dropped either way. -/
def queueBuilt (s : FT) (res : Option (List Task × Nat)) : FT × List Event :=
  if s.builderActive then
    let s1 := { s with builderActive := false }
    match res with
    | some (tasks, total) =>
      let s2 := { s1 with tasks := tasks, totalSize := total }
      if s2.tasks.isEmpty then onFinished s2 else doFrontTask s2 false
    | none => onError s1 ErrType.queue FileError.unknown ""
  else (s, [])

/-- Expiry of the 5-second cancel deadline: `onFinished` fires
unconditionally while the timer is armed. -/
def cancelTimerFired (s : FT) : FT × List Event :=
  if s.cancelTimerActive then onFinished { s with cancelTimerActive := false }
  else (s, [])

/-- The operation alphabet driving a coordinator execution: everything that
can re-enter the coordinator after `start`. -/
inductive Op
  | stop
  | queueBuilt (res : Option (List Task × Nat))
  | targetReply (req : FileRequestBody) (rep : FileReply)
  | sourceReply (req : FileRequestBody) (rep : FileReply)
  | userAction (t : ErrType) (a : ErrAction)
  | timerFired

/-- One coordinator step. -/
def step (kMax : Nat) (s : FT) : Op → FT × List Event
  | .stop => stopTransfer s
  | .queueBuilt res => queueBuilt s res
  | .targetReply req rep => targetReply kMax s req rep
  | .sourceReply req rep => sourceReply s req rep
  | .userAction t a => setAction s t a
  | .timerFired => cancelTimerFired s

/-- A whole execution: run the operations in order, concatenating the
emitted events. -/
def run (kMax : Nat) (s : FT) : List Op → FT × List Event
  | [] => (s, [])
  | op :: ops =>
    let p := step kMax s op
    let q := run kMax p.1 ops
    (q.1, p.2 ++ q.2)

/-! ### Concrete fixtures used by the closed evaluations and witnesses -/

/-- A crypto environment without AES-NI, with total primitives. -/
def cryptoEnvX : CryptoEnv :=
  { hasAesNi := false,
    sessionKeyOf := fun _ => List.replicate 32 7,
    blake2s256 := fun _ => List.replicate 32 9,
    fromPrivateKey := fun _ => true,
    randomIv := List.replicate 12 1 }

/-- The same environment with AES-NI reported. -/
def cryptoEnvAes : CryptoEnv := { cryptoEnvX with hasAesNi := true }

/-- A started authenticator configured for anonymous access (valid key
pair, one allowed session type). -/
def authEnable : Authenticator :=
  { state := AuthState.pending, internalState := InternalState.readClientHello,
    keyPairValid := true, encryptIv := List.replicate 12 1, decryptIv := [],
    sessionKey := [], sessionTypes := 1,
    anonymousAccess := AnonymousAccess.enable, identify := 0, encryption := 0,
    sessionType := 0, peerVersion := (0, 0, 0) }

/-- The same authenticator with anonymous access disabled. -/
def authDisable : Authenticator :=
  { authEnable with anonymousAccess := AnonymousAccess.disable, sessionTypes := 0 }

/-- A well-formed anonymous `ClientHello` advertising ChaCha20-Poly1305. -/
def helloAnon : ClientHello :=
  { encryption := ENCRYPTION_CHACHA20_POLY1305, identify := IDENTIFY_ANONYMOUS,
    iv := List.replicate 12 0, publicKey := List.replicate 32 3 }

/-- A well-formed SRP `ClientHello` advertising only AES256-GCM. -/
def helloAesOnly : ClientHello :=
  { encryption := ENCRYPTION_AES256_GCM, identify := IDENTIFY_SRP,
    iv := List.replicate 12 0, publicKey := List.replicate 32 3 }

/-- A well-formed SRP `ClientHello` advertising both ciphers. -/
def helloBoth : ClientHello := { helloAesOnly with encryption := 3 }

/-- Coordinator state right after `start`, while the queue is building. -/
def ftStart : FT :=
  { tasks := [], totalSize := 0, taskTransferedSize := 0, totalTransferedSize := 0,
    taskPercentage := 0, totalPercentage := 0, isCanceled := false,
    actions := fun _ => none, finishCallbackPresent := true,
    cancelTimerActive := false, builderActive := true }

/-- A successful `FileReply`. -/
def replyOk : FileReply := { errorCode := FileError.success }

/-- A single queued one-byte file task. -/
def oneByteTask : Task :=
  { sourcePath := "f", targetPath := "g", isDirectory := false, size := 1,
    overwrite := false }

/-- The complete copy of one one-byte file: queue built, download, upload,
packet request, final packet carrying LAST_PACKET. -/
def smallCopyOps : List Op :=
  [ Op.queueBuilt (some ([oneByteTask], 1)),
    Op.sourceReply FileRequestBody.downloadReq replyOk,
    Op.targetReply FileRequestBody.uploadReq replyOk,
    Op.sourceReply FileRequestBody.packetRequestReq replyOk,
    Op.targetReply (FileRequestBody.packetReq LAST_PACKET) replyOk ]

/-- Coordinator state just before the final packet reply of the one-byte
copy. -/
def oneByteState : FT :=
  { ftStart with tasks := [oneByteTask], totalSize := 1, builderActive := false }

/-- Coordinator state with a sticky REPLACE_ALL recorded for
ALREADY_EXISTS. -/
def stickyState : FT :=
  { ftStart with
    actions := fun u =>
      if u = ErrType.alreadyExists then some ErrAction.replaceAll else none }

/-- True when the event list makes no `errorOccurred` call on the window
proxy. -/
def noErrorCalls (l : List Event) : Bool :=
  l.all (fun e => ! e.isErrorCall)

/-- The number of finish-callback invocations in an event list. -/
def fcbCount (l : List Event) : Nat :=
  l.count Event.finishCallback

/-- 1 when the finish callback is still installed, 0 once consumed. -/
def finM (s : FT) : Nat :=
  if s.finishCallbackPresent then 1 else 0

/-- Scans an event list with a seen-a-window-stop flag; true when every
finish-callback invocation is preceded by an earlier window-stop call. -/
def sbc (seen : Bool) : List Event → Bool
  | [] => true
  | Event.finishCallback :: rest => seen && sbc seen rest
  | Event.windowStop :: rest => sbc true rest
  | _ :: rest => sbc seen rest

/-- Bound carried through an execution: the events of the suffix can fire
the finish callback at most as often as the callback is still installed,
and never before a window stop. -/
def FinBound (s : FT) (p : FT × List Event) : Prop :=
  fcbCount p.2 + finM p.1 ≤ finM s ∧ sbc false p.2 = true

/-! ### Supporting lemmas -/

theorem sentHello_finishHello (a : Authenticator) (env : CryptoEnv)
    (ch : ClientHello) (shIv : List Nat) :
    (finishHello a env ch shIv).sentHello =
      some (ServerHello.mk
        (if ch.encryption &&& ENCRYPTION_AES256_GCM ≠ 0 ∧ env.hasAesNi = true then
          ENCRYPTION_AES256_GCM
        else ENCRYPTION_CHACHA20_POLY1305) shIv) := rfl

theorem keyBlock_sent (a : Authenticator) (env : CryptoEnv) (ch : ClientHello)
    (sh : ServerHello) (h : (helloKeyBlock a env ch).sentHello = some sh) :
    sh.encryption =
      if ch.encryption &&& ENCRYPTION_AES256_GCM ≠ 0 ∧ env.hasAesNi = true then
        ENCRYPTION_AES256_GCM
      else ENCRYPTION_CHACHA20_POLY1305 := by
  simp only [helloKeyBlock] at h
  split at h
  · split at h
    · simp [HelloResult.sentHello] at h
    · split at h
      · simp [HelloResult.sentHello] at h
      · split at h
        · simp [HelloResult.sentHello] at h
        · split at h
          · simp [HelloResult.sentHello] at h
          · rw [sentHello_finishHello] at h
            simp only [Option.some.injEq] at h
            rw [← h]
  · rw [sentHello_finishHello] at h
    simp only [Option.some.injEq] at h
    rw [← h]

theorem actions_onFinished (s : FT) : (onFinished s).1.actions = s.actions := by
  unfold onFinished
  split <;> rfl

theorem actions_doFrontTask (s : FT) (b : Bool) :
    (doFrontTask s b).1.actions = s.actions := by
  cases ht : s.tasks with
  | nil => simp [doFrontTask, ht]
  | cons t rest =>
    simp only [doFrontTask, ht]
    split <;> rfl

theorem actions_doNextTask (s : FT) : (doNextTask s).1.actions = s.actions := by
  cases hic : s.isCanceled <;> cases ht : s.tasks <;>
    simp only [doNextTask, hic, ht] <;>
    (repeat' split) <;>
    simp [actions_onFinished, actions_doFrontTask]

theorem noError_onFinished (s : FT) : noErrorCalls (onFinished s).2 = true := by
  unfold onFinished
  split <;> rfl

theorem noError_doFrontTask (s : FT) (b : Bool) :
    noErrorCalls (doFrontTask s b).2 = true := by
  cases ht : s.tasks with
  | nil => simp [doFrontTask, ht, noErrorCalls]
  | cons t rest =>
    simp only [doFrontTask, ht]
    split <;> rfl

theorem noError_doNextTask (s : FT) : noErrorCalls (doNextTask s).2 = true := by
  cases hic : s.isCanceled <;> cases ht : s.tasks <;>
    simp only [doNextTask, hic, ht] <;>
    (repeat' split) <;>
    simp [noError_onFinished, noError_doFrontTask]

theorem noError_setAction (s : FT) (t : ErrType) (a : ErrAction) :
    noErrorCalls (setAction s t a).2 = true := by
  cases a
  · rfl
  · exact noError_onFinished _
  · exact noError_doNextTask _
  · exact noError_doNextTask _
  · exact noError_doFrontTask _ _
  · exact noError_doFrontTask _ _

/-! ### The claims -/

/-- C1: the spec requires an ANONYMOUS ClientHello to proceed to a
ServerHello exactly when `anonymous_access == ENABLE`; the code tests the
condition the other way round (its own comment reads: if anonymous method
is not allowed). On a well-formed anonymous hello the handler fails under
ENABLE and proceeds under DISABLE. -/
theorem c1_anonymous_gate_inverted :
    (onClientHello authEnable cryptoEnvX (some helloAnon)).isFailed = true ∧
    (onClientHello authDisable cryptoEnvX (some helloAnon)).isFailed = false :=
  ⟨rfl, rfl⟩

/-- C2: over the complete copy of a single 1-byte file with
`kMaxFilePacketSize = 4`, the coordinator ends with
`total_transfered_size = 3` while `total_size = 1`, violating the claimed
invariant `total_transfered_size ≤ total_size`. -/
theorem c2_total_exceeds_total_size :
    (run 4 ftStart smallCopyOps).1.totalTransferedSize = 3 ∧
    (run 4 ftStart smallCopyOps).1.totalSize = 1 ∧
    ¬((run 4 ftStart smallCopyOps).1.totalTransferedSize ≤
        (run 4 ftStart smallCopyOps).1.totalSize) := by
  refine ⟨rfl, rfl, ?_⟩
  decide

/-- C3: for the final packet of a 1-byte task with
`kMaxFilePacketSize = 4`, the code adds
`task_transfered_size - task.size = 3` to the total, not
`min(kMaxFilePacketSize, task.size - task_transfered_size_before) = 1` as
the claim states. -/
theorem c3_packet_charge_wrong :
    (targetReply 4 oneByteState (FileRequestBody.packetReq LAST_PACKET)
        replyOk).1.totalTransferedSize -
      oneByteState.totalTransferedSize = 3 ∧
    min 4 (oneByteTask.size - oneByteState.taskTransferedSize) = 1 ∧
    (3 : Nat) ≠ 1 := by
  refine ⟨rfl, rfl, ?_⟩
  decide

/-- C4: the `kActions` table has no row for `Error::Type::QUEUE`, so
`availableActions()` returns the empty mask (not the set containing
exactly ABORT) and `defaultAction()` returns ABORT (not ASK); the OTHER
row behaves as the claim states. -/
theorem c4_queue_row_missing :
    availableActions ErrType.queue = 0 ∧
    availableActions ErrType.queue ≠ actionBit ErrAction.abort ∧
    defaultAction ErrType.queue = ErrAction.abort ∧
    defaultAction ErrType.queue ≠ ErrAction.ask ∧
    availableActions ErrType.other = actionBit ErrAction.abort ∧
    defaultAction ErrType.other = ErrAction.ask := by
  decide

/-- C5, counterexample: a client advertising only AES256-GCM, on a host
without AES-NI, is answered with CHACHA20_POLY1305 although it never
advertised that cipher, refuting the final conjunct of the claim. -/
theorem c5_counterexample :
    (onClientHello authDisable cryptoEnvX (some helloAesOnly)).sentHello =
      some (ServerHello.mk ENCRYPTION_CHACHA20_POLY1305 (List.replicate 12 1)) ∧
    helloAesOnly.encryption &&& ENCRYPTION_CHACHA20_POLY1305 = 0 :=
  ⟨rfl, rfl⟩

/-- C5, amended: whenever `onClientHello` sends a ServerHello, its cipher
is AES256-GCM iff the client advertised AES256-GCM and the CPU reports
AES-NI; in every other case the chosen cipher is CHACHA20_POLY1305,
whether or not the client advertised it. -/
theorem c5_cipher_selection (a : Authenticator) (env : CryptoEnv)
    (ch : ClientHello) (sh : ServerHello)
    (h : (onClientHello a env (some ch)).sentHello = some sh) :
    (sh.encryption = ENCRYPTION_AES256_GCM ↔
      (ch.encryption &&& ENCRYPTION_AES256_GCM ≠ 0 ∧ env.hasAesNi = true)) ∧
    (¬(ch.encryption &&& ENCRYPTION_AES256_GCM ≠ 0 ∧ env.hasAesNi = true) →
      sh.encryption = ENCRYPTION_CHACHA20_POLY1305) := by
  have henc : sh.encryption =
      if ch.encryption &&& ENCRYPTION_AES256_GCM ≠ 0 ∧ env.hasAesNi = true then
        ENCRYPTION_AES256_GCM
      else ENCRYPTION_CHACHA20_POLY1305 := by
    simp only [onClientHello] at h
    split at h
    · simp [HelloResult.sentHello] at h
    · split at h
      · exact keyBlock_sent _ _ _ _ h
      · split at h
        · split at h
          · simp [HelloResult.sentHello] at h
          · exact keyBlock_sent _ _ _ _ h
        · simp [HelloResult.sentHello] at h
  by_cases hc : ch.encryption &&& ENCRYPTION_AES256_GCM ≠ 0 ∧ env.hasAesNi = true
  · rw [henc, if_pos hc]
    exact ⟨⟨fun _ => hc, fun _ => rfl⟩, fun hn => absurd hc hn⟩
  · rw [henc, if_neg hc]
    refine ⟨⟨fun h21 => absurd h21 (by decide), fun hcc => absurd hcc hc⟩, fun _ => rfl⟩

/-- Witness for C5: both ciphers advertised on an AES-NI host select
AES256-GCM. -/
theorem c5_cipher_selection_witness :
    ((ServerHello.mk ENCRYPTION_AES256_GCM (List.replicate 12 1)).encryption =
        ENCRYPTION_AES256_GCM ↔
      (helloBoth.encryption &&& ENCRYPTION_AES256_GCM ≠ 0 ∧
        cryptoEnvAes.hasAesNi = true)) ∧
    (¬(helloBoth.encryption &&& ENCRYPTION_AES256_GCM ≠ 0 ∧
        cryptoEnvAes.hasAesNi = true) →
      (ServerHello.mk ENCRYPTION_AES256_GCM (List.replicate 12 1)).encryption =
        ENCRYPTION_CHACHA20_POLY1305) :=
  c5_cipher_selection authDisable cryptoEnvAes helloBoth
    (ServerHello.mk ENCRYPTION_AES256_GCM (List.replicate 12 1)) rfl

/-- C6: processing a SessionResponse in READ_SESSION_RESPONSE reaches
SUCCESS with the completion delegate fired iff the session_type has
popcount exactly 1 and intersects the allowed mask; a parse failure or a
failed check reaches FAILED. -/
theorem c6_session_response_check (a : Authenticator) (r : SessionResponse)
    (_hal : a.sessionTypes < 2 ^ 32) (_hst : r.sessionType < 2 ^ 32) :
    (((onSessionResponse a (some r)).1.state = AuthState.success ∧
        (onSessionResponse a (some r)).2 = true) ↔
      (bitCount32 r.sessionType = 1 ∧ a.sessionTypes &&& r.sessionType ≠ 0)) ∧
    (¬(bitCount32 r.sessionType = 1 ∧ a.sessionTypes &&& r.sessionType ≠ 0) →
      (onSessionResponse a (some r)).1.state = AuthState.failed) ∧
    (onSessionResponse a none).1.state = AuthState.failed := by
  refine ⟨?_, ?_, rfl⟩
  · unfold onSessionResponse
    by_cases h1 : bitCount32 r.sessionType = 1
    · by_cases h2 : a.sessionTypes &&& r.sessionType = 0
      · simp [h1, h2, failAuth]
      · simp [h1, h2]
    · simp [h1, failAuth]
  · intro hn
    unfold onSessionResponse
    by_cases h1 : bitCount32 r.sessionType = 1
    · by_cases h2 : a.sessionTypes &&& r.sessionType = 0
      · simp [h1, h2, failAuth]
      · exact absurd ⟨h1, h2⟩ hn
    · simp [h1, failAuth]

/-- Witness for C6: allowed mask 1, response bit 1, succeeds. -/
theorem c6_session_response_check_witness :
    (((onSessionResponse authEnable (some
        { sessionType := 1, versionMajor := 2, versionMinor := 3,
          versionPatch := 0 })).1.state = AuthState.success ∧
        (onSessionResponse authEnable (some
        { sessionType := 1, versionMajor := 2, versionMinor := 3,
          versionPatch := 0 })).2 = true) ↔
      (bitCount32 1 = 1 ∧ authEnable.sessionTypes &&& 1 ≠ 0)) ∧
    (¬(bitCount32 1 = 1 ∧ authEnable.sessionTypes &&& 1 ≠ 0) →
      (onSessionResponse authEnable (some
        { sessionType := 1, versionMajor := 2, versionMinor := 3,
          versionPatch := 0 })).1.state = AuthState.failed) ∧
    (onSessionResponse authEnable none).1.state = AuthState.failed :=
  c6_session_response_check authEnable
    { sessionType := 1, versionMajor := 2, versionMinor := 3, versionPatch := 0 }
    (by decide) (by decide)

/-- C7: SKIP_ALL and REPLACE_ALL record a sticky action for the error
type; a later error of the same type is resolved by applying the recorded
action with no `errorOccurred` call on the window proxy; plain SKIP and
REPLACE leave the sticky map unchanged. -/
theorem c7_sticky_actions (s : FT) (t : ErrType) :
    ((setAction s t ErrAction.skipAll).1.actions t = some ErrAction.skipAll) ∧
    ((setAction s t ErrAction.replaceAll).1.actions t = some ErrAction.replaceAll) ∧
    ((setAction s t ErrAction.skip).1.actions = s.actions) ∧
    ((setAction s t ErrAction.replace).1.actions = s.actions) ∧
    (∀ a code path, s.actions t = some a →
      onError s t code path = setAction s t a ∧
      noErrorCalls (setAction s t a).2 = true) := by
  refine ⟨?_, ?_, actions_doNextTask s, actions_doFrontTask s true, ?_⟩
  · show (doNextTask (setActionForErrorType s t ErrAction.skipAll)).1.actions t =
      some ErrAction.skipAll
    rw [actions_doNextTask]
    simp [setActionForErrorType]
  · show (doFrontTask (setActionForErrorType s t ErrAction.replaceAll)
        true).1.actions t = some ErrAction.replaceAll
    rw [actions_doFrontTask]
    simp [setActionForErrorType]
  · intro a code path h
    refine ⟨?_, noError_setAction s t a⟩
    simp [onError, h]

/-- Witness for C7: a recorded REPLACE_ALL for ALREADY_EXISTS resolves the
next ALREADY_EXISTS error without surfacing it. -/
theorem c7_sticky_actions_witness :
    onError stickyState ErrType.alreadyExists FileError.pathAlreadyExists "p" =
      setAction stickyState ErrType.alreadyExists ErrAction.replaceAll ∧
    noErrorCalls (setAction stickyState ErrType.alreadyExists
      ErrAction.replaceAll).2 = true :=
  (c7_sticky_actions stickyState ErrType.alreadyExists).2.2.2.2
    ErrAction.replaceAll FileError.pathAlreadyExists "p" rfl

/-- C8: both configuration setters, called while the state is not STOPPED,
return false and leave the authenticator unchanged. -/
theorem c8_setters_reject (a : Authenticator) (env : CryptoEnv)
    (privateKey : List Nat) (access : AnonymousAccess) (sessionTypes : Nat)
    (h : a.state ≠ AuthState.stopped) :
    setPrivateKey a env privateKey = (false, a) ∧
    setAnonymousAccess a access sessionTypes = (false, a) := by
  unfold setPrivateKey setAnonymousAccess
  simp [h]

/-- Witness for C8: a PENDING authenticator rejects both setters. -/
theorem c8_setters_reject_witness :
    setPrivateKey authEnable cryptoEnvX [1] = (false, authEnable) ∧
    setAnonymousAccess authEnable AnonymousAccess.disable 0 =
      (false, authEnable) :=
  c8_setters_reject authEnable cryptoEnvX [1] AnonymousAccess.disable 0
    (by decide)

/-- C10: a target or source reply delivered with an empty task queue is a
complete no-op: same state, no events. -/
theorem c10_empty_queue_noop (kMax : Nat) (s : FT) (req : FileRequestBody)
    (rep : FileReply) (h : s.tasks = []) :
    targetReply kMax s req rep = (s, []) ∧ sourceReply s req rep = (s, []) := by
  unfold targetReply sourceReply
  simp [h]

/-- Witness for C10: the post-start state has an empty queue and ignores
replies. -/
theorem c10_empty_queue_noop_witness :
    targetReply 4 ftStart FileRequestBody.uploadReq replyOk = (ftStart, []) ∧
    sourceReply ftStart FileRequestBody.downloadReq replyOk = (ftStart, []) :=
  c10_empty_queue_noop 4 ftStart FileRequestBody.uploadReq replyOk rfl

/-! ### Supporting lemmas for the finish-once trace invariant -/

theorem sbc_mono (l : List Event) : ∀ b : Bool, sbc false l = true → sbc b l = true := by
  induction l with
  | nil => intro b _; rfl
  | cons e rest ih =>
    intro b h
    cases e <;> simp only [sbc] at h ⊢ <;>
      first
        | exact ih b h
        | exact h
        | (simp only [Bool.false_and] at h; exact absurd h (by decide))

theorem sbc_append (a b : List Event) :
    ∀ s : Bool, sbc s a = true → sbc false b = true → sbc s (a ++ b) = true := by
  induction a with
  | nil => intro s _ hb; exact sbc_mono b s hb
  | cons e rest ih =>
    intro s ha hb
    cases e <;> simp only [List.cons_append, sbc] at ha ⊢
    · exact ih s ha hb
    · exact ih s ha hb
    · exact ih s ha hb
    · exact ih s ha hb
    · exact ih true ha hb
    · cases s with
      | false =>
        simp only [Bool.false_and] at ha
        exact absurd ha (by decide)
      | true =>
        simp only [Bool.true_and] at ha ⊢
        exact ih true ha hb

theorem finBound_seq (s s1 s2 : FT) (e1 e2 : List Event)
    (h1 : FinBound s (s1, e1)) (h2 : FinBound s1 (s2, e2)) :
    FinBound s (s2, e1 ++ e2) := by
  unfold FinBound at h1 h2 ⊢
  constructor
  · have ha := h1.1
    have hb := h2.1
    simp only [fcbCount, List.count_append] at ha hb ⊢
    omega
  · exact sbc_append e1 e2 false h1.2 h2.2

theorem finBound_mono (s s2 : FT) (p : FT × List Event)
    (h : s2.finishCallbackPresent = s.finishCallbackPresent)
    (hp : FinBound s2 p) : FinBound s p := by
  unfold FinBound finM at hp ⊢
  rw [h] at hp
  exact hp

theorem finBound_noFcb (s s2 : FT) (l : List Event)
    (hcb : s2.finishCallbackPresent = s.finishCallbackPresent)
    (hc : fcbCount l = 0) (hs : sbc false l = true) : FinBound s (s2, l) := by
  constructor
  · show fcbCount l + finM s2 ≤ finM s
    have h2 : finM s2 = finM s := by
      unfold finM
      rw [hcb]
    rw [hc, h2]
    omega
  · exact hs

theorem finBound_onFinished (s : FT) : FinBound s (onFinished s) := by
  unfold onFinished
  split
  · rename_i h
    refine ⟨?_, rfl⟩
    show fcbCount [Event.windowStop, Event.finishCallback] +
      finM { s with finishCallbackPresent := false } ≤ finM s
    have h1 : fcbCount [Event.windowStop, Event.finishCallback] = 1 := rfl
    have h2 : finM { s with finishCallbackPresent := false } = 0 := rfl
    have h3 : finM s = 1 := by simp [finM, h]
    omega
  · refine ⟨?_, rfl⟩
    show fcbCount [] + finM s ≤ finM s
    simp [fcbCount]

theorem finBound_onFinished_of (s s2 : FT)
    (h : s2.finishCallbackPresent = s.finishCallbackPresent) :
    FinBound s (onFinished s2) :=
  finBound_mono s s2 _ h (finBound_onFinished s2)

theorem finBound_doFrontTask (s s2 : FT) (b : Bool)
    (h : s2.finishCallbackPresent = s.finishCallbackPresent) :
    FinBound s (doFrontTask s2 b) := by
  cases ht : s2.tasks with
  | nil =>
    simp only [doFrontTask, ht]
    exact finBound_noFcb s s2 [] h rfl rfl
  | cons t rest =>
    simp only [doFrontTask, ht]
    split
    · exact finBound_noFcb s _ _ h rfl rfl
    · exact finBound_noFcb s _ _ h rfl rfl

theorem finBound_doNextTask (s s2 : FT)
    (h : s2.finishCallbackPresent = s.finishCallbackPresent) :
    FinBound s (doNextTask s2) := by
  cases hic : s2.isCanceled <;> cases ht : s2.tasks <;>
    simp only [doNextTask, hic, ht] <;> (repeat' split) <;>
    first
      | exact finBound_onFinished_of s _ h
      | exact finBound_doFrontTask s _ false h

theorem finBound_setAction (s s2 : FT) (t : ErrType) (a : ErrAction)
    (h : s2.finishCallbackPresent = s.finishCallbackPresent) :
    FinBound s (setAction s2 t a) := by
  cases a
  · exact finBound_noFcb s s2 [] h rfl rfl
  · exact finBound_onFinished_of s s2 h
  · exact finBound_doNextTask s s2 h
  · exact finBound_doNextTask s _ h
  · exact finBound_doFrontTask s s2 true h
  · exact finBound_doFrontTask s _ true h

theorem finBound_onError (s s2 : FT) (t : ErrType) (code : FileError)
    (path : String) (h : s2.finishCallbackPresent = s.finishCallbackPresent) :
    FinBound s (onError s2 t code path) := by
  unfold onError
  split
  · exact finBound_setAction s s2 t _ h
  · exact finBound_noFcb s s2 _ h rfl rfl

theorem finBound_chargePacket (s s2 : FT) (k f : Nat)
    (h : s2.finishCallbackPresent = s.finishCallbackPresent) :
    FinBound s (chargePacket k s2 f) := by
  simp only [chargePacket]
  (repeat' split) <;> exact finBound_noFcb s _ _ h rfl rfl

theorem finBound_targetReply (k : Nat) (s : FT) (req : FileRequestBody)
    (rep : FileReply) : FinBound s (targetReply k s req rep) := by
  cases req <;> simp only [targetReply] <;> (repeat' split) <;>
    first
      | exact finBound_noFcb s s _ rfl rfl rfl
      | exact finBound_doNextTask s s rfl
      | exact finBound_onError s s _ _ _ rfl
      | (refine finBound_seq s (chargePacket k s (s.tasks.headI.size)).1 _
            (chargePacket k s (s.tasks.headI.size)).2 _ ?_ ?_
         · exact finBound_chargePacket s s k _ rfl
         · first
             | exact finBound_doNextTask _ _ rfl
             | exact finBound_noFcb _ _ _ rfl rfl rfl)

theorem finBound_sourceReply (s : FT) (req : FileRequestBody)
    (rep : FileReply) : FinBound s (sourceReply s req rep) := by
  cases req <;> simp only [sourceReply] <;> (repeat' split) <;>
    first
      | exact finBound_noFcb s s _ rfl rfl rfl
      | exact finBound_onError s s _ _ _ rfl

theorem finBound_stopTransfer (s : FT) : FinBound s (stopTransfer s) := by
  unfold stopTransfer
  split
  · exact finBound_onFinished_of s _ rfl
  · exact finBound_noFcb s _ [] rfl rfl rfl

theorem finBound_queueBuilt (s : FT) (res : Option (List Task × Nat)) :
    FinBound s (queueBuilt s res) := by
  cases res with
  | none =>
    simp only [queueBuilt]
    split
    · exact finBound_onError s _ _ _ _ rfl
    · exact finBound_noFcb s s [] rfl rfl rfl
  | some pr =>
    obtain ⟨tasks, total⟩ := pr
    simp only [queueBuilt]
    (repeat' split) <;>
      first
        | exact finBound_onFinished_of s _ rfl
        | exact finBound_doFrontTask s _ false rfl
        | exact finBound_noFcb s s [] rfl rfl rfl

theorem finBound_cancelTimerFired (s : FT) : FinBound s (cancelTimerFired s) := by
  unfold cancelTimerFired
  split
  · exact finBound_onFinished_of s _ rfl
  · exact finBound_noFcb s s [] rfl rfl rfl

theorem finBound_step (k : Nat) (s : FT) (op : Op) : FinBound s (step k s op) := by
  cases op
  · exact finBound_stopTransfer s
  · exact finBound_queueBuilt s _
  · exact finBound_targetReply k s _ _
  · exact finBound_sourceReply s _ _
  · exact finBound_setAction s s _ _ rfl
  · exact finBound_cancelTimerFired s

theorem finBound_run (k : Nat) (s : FT) (ops : List Op) :
    FinBound s (run k s ops) := by
  induction ops generalizing s with
  | nil =>
    constructor
    · show fcbCount [] + finM s ≤ finM s
      simp [fcbCount]
    · rfl
  | cons op ops ih =>
    simp only [run]
    refine finBound_seq s (step k s op).1 _ (step k s op).2 _ ?_ ?_
    · exact finBound_step k s op
    · exact ih _

/-- C9: over any execution of the coordinator (any operation sequence after
`start`), the finish callback fires at most once, and every firing is
preceded by a stop instruction to the window proxy. -/
theorem c9_finish_at_most_once (kMax : Nat) (s : FT) (ops : List Op) :
    fcbCount (run kMax s ops).2 ≤ 1 ∧
    sbc false (run kMax s ops).2 = true := by
  have h := finBound_run kMax s ops
  unfold FinBound at h
  refine ⟨?_, h.2⟩
  have h1 := h.1
  have h2 : finM s ≤ 1 := by
    unfold finM
    split <;> omega
  omega

end Aspia
